import Mathlib

/-!
Shallow embedding of the welding-robot data-engineering pipeline
(`weld_pipeline`): the event/quality cleaning step, the data-quality
auditor, the KPI engine, the downtime analyzer, the alert classifier and
the drilldown aggregator, together with theorems checking the
specification's claims about them.

Modelling conventions:
* pandas DataFrames are lists of records; a table whose column set matters
  (the drilldown aggregator checks for `cell_id`/`robot_id` columns) is a
  record `{columns, rows}`.
* Timestamps are epoch seconds (`Int`); an unparseable timestamp
  (`pd.to_datetime(..., errors="coerce")` returning `NaT`) is `none`.
* Nullable scalars are `Option`-typed; floats are `ℚ` (all numeric code in
  the pipeline is exact decimal/integer arithmetic on these inputs).
* Python's `round` (round-half-to-even) is `pyRound`.
* pandas/Python sorts are embedded as the stable `List.insertionSort`.
  pandas `groupby` iterates groups in sorted key order; group order is
  modelled as first-occurrence order where the downstream computation is
  order-insensitive (sums, maxima, multiset statistics).
-/

set_option synthInstance.maxSize 512

namespace WeldPipeline

/-- Deduplication keeping the first occurrence of each key (the semantics of
`DataFrame.drop_duplicates(subset=...)`), with an explicit accumulator of
already-seen keys so the function is structurally recursive. -/
def dedupAux {α κ : Type} [DecidableEq κ] (key : α → κ) (seen : List κ) : List α → List α
  | [] => []
  | a :: t =>
    if seen.contains (key a) then dedupAux key seen t
    else a :: dedupAux key (key a :: seen) t

/-- `drop_duplicates` by a key function, keeping first occurrences. -/
def dedupByKey {α κ : Type} [DecidableEq κ] (key : α → κ) (l : List α) : List α :=
  dedupAux key [] l

/-- Count of rows marked by `DataFrame.duplicated(subset=...)`: rows that
repeat the key of an earlier row. -/
def dupCountAux {α κ : Type} [DecidableEq κ] (key : α → κ) (seen : List κ) : List α → ℕ
  | [] => 0
  | a :: t =>
    if seen.contains (key a) then 1 + dupCountAux key seen t
    else dupCountAux key (key a :: seen) t

/-- `DataFrame.duplicated(subset=key).sum()`. -/
def duplicatedCount {α κ : Type} [DecidableEq κ] (key : α → κ) (l : List α) : ℕ :=
  dupCountAux key [] l

/-- Minimum of a list of integers (`Series.min()` skipping missing values is
applied to the already-filtered list). -/
def minInt : List ℤ → Option ℤ
  | [] => none
  | a :: t =>
    match minInt t with
    | none => some a
    | some b => some (min a b)

/-- Maximum of a list of integers (`Series.max()`). -/
def maxInt : List ℤ → Option ℤ
  | [] => none
  | a :: t =>
    match maxInt t with
    | none => some a
    | some b => some (max a b)

/-- Round a rational to the nearest integer, ties to even: the semantics of
Python's builtin `round` on these exact values. -/
def roundHalfEven (x : ℚ) : ℤ :=
  let f := ⌊x⌋
  if x - f < 1/2 then f
  else if 1/2 < x - f then f + 1
  else if f % 2 = 0 then f else f + 1

/-- Python's `round(x, ndigits)`. -/
def pyRound (ndigits : ℕ) (x : ℚ) : ℚ :=
  (roundHalfEven (x * 10 ^ ndigits) : ℚ) / 10 ^ ndigits

/-- Python's `str.strip()` / pandas `.str.strip()`: drop leading and
trailing whitespace (structural over the character list). -/
def strStrip (s : String) : String :=
  String.mk (((s.data.dropWhile Char.isWhitespace).reverse.dropWhile
    Char.isWhitespace).reverse)

/-- Python's `str.upper()` / pandas `.str.upper()` (structural over the
character list). -/
def strUpper (s : String) : String :=
  String.mk (s.data.map Char.toUpper)

/-- Python's `x or d` for a nullable float `x`: `None` and `0.0` are falsy
and yield `d`. -/
def pyOrQ (x : Option ℚ) (d : ℚ) : ℚ :=
  match x with
  | none => d
  | some v => if v = 0 then d else v

/-- One row of the raw/staged robot-events table. `ts` already carries the
result of timestamp parsing. -/
structure Event where
  ts : Option ℤ
  cell_id : Option String
  robot_id : Option String
  job_id : Option String
  program_id : Option String
  event_type : Option String
  error_code : Option String
deriving DecidableEq

/-- One row of the raw/staged quality-checks table. -/
structure QualityRow where
  job_id : Option String
  cell_id : Option String
  robot_id : Option String
  program_id : Option String
  result : Option String
  reason : Option String
  rework_needed : Option Bool
deriving DecidableEq

/-! ## KPI engine (`report/kpi.py`) -/

/-- The four-column group key of `compute_kpis`; `none` when any key column
is missing (pandas `groupby` drops such rows). -/
def kpiKey (e : Event) : Option (String × String × String × String) :=
  match e.cell_id, e.robot_id, e.job_id, e.program_id with
  | some c, some r, some j, some p => some (c, r, j, p)
  | _, _, _, _ => none

/-- Valid timestamps of events of type `t` in group `k`
(`df[df.event_type == t].groupby(key).ts`). -/
def typedTs (events : List Event) (t : String) (k : String × String × String × String) :
    List ℤ :=
  (events.filter fun e => decide (e.event_type = some t) && decide (kpiKey e = some k)).filterMap
    (·.ts)

/-- The distinct group keys of an events list. -/
def groupKeys (events : List Event) : List (String × String × String × String) :=
  dedupByKey id (events.filterMap kpiKey)

/-- Per-group span: latest `endType` timestamp minus earliest `startType`
timestamp, in seconds; `none` when either side has no valid timestamp
(the aligned subtraction yields `NaN` and is dropped). -/
def spanSeconds (events : List Event) (startType endType : String)
    (k : String × String × String × String) : Option ℤ :=
  match minInt (typedTs events startType k), maxInt (typedTs events endType k) with
  | some a, some b => some (b - a)
  | _, _ => none

/-- The accepted span sample: one span per group, restricted by the sanity
filter `(span >= 0) & (span <= 3600)`. -/
def spanSamples (events : List Event) (startType endType : String) : List ℤ :=
  ((groupKeys events).filterMap (spanSeconds events startType endType)).filter
    fun d => decide (0 ≤ d) && decide (d ≤ 3600)

/-- The cycle-time sample of `compute_kpis` (earliest `START_CYCLE` to
latest `END_CYCLE` per group, sanity-filtered). -/
def acceptedCycleTimes (events : List Event) : List ℤ :=
  spanSamples events "START_CYCLE" "END_CYCLE"

/-- The arc-on-time sample of `compute_kpis` (earliest `ARC_ON` to latest
`ARC_OFF` per group, sanity-filtered). -/
def acceptedArcTimes (events : List Event) : List ℤ :=
  spanSamples events "ARC_ON" "ARC_OFF"

/-- pandas `Series.quantile(q)` with the default linear interpolation,
on an integer-valued sample. -/
def quantileLin (q : ℚ) (xs : List ℤ) : Option ℚ :=
  match xs with
  | [] => none
  | _ =>
    let s := List.insertionSort (· ≤ ·) xs
    let n := xs.length
    let pos : ℚ := q * (n - 1)
    let i : ℕ := (⌊pos⌋).toNat
    let frac : ℚ := pos - (⌊pos⌋ : ℚ)
    let lo : ℚ := ((s.getD i 0 : ℤ) : ℚ)
    let hi : ℚ := ((s.getD (i + 1) (s.getD i 0) : ℤ) : ℚ)
    some (lo + frac * (hi - lo))

/-- Mean of an integer-valued sample. -/
def meanQ (xs : List ℤ) : ℚ :=
  ((xs.sum : ℤ) : ℚ) / (xs.length : ℚ)

/-- The `{count, mean, p50, p95}` summary of one distribution in the KPI
snapshot. All four JSON fields are nullable in the schema; the code fills
`count` with `int(sample.shape[0])` unconditionally and the other three
with `round(..., 2)` guarded by `if len(sample)`. -/
structure DistSummary where
  count : Option ℕ
  mean : Option ℚ
  p50 : Option ℚ
  p95 : Option ℚ
deriving DecidableEq

/-- Build a `DistSummary` exactly as `compute_kpis` does. -/
def summarize (xs : List ℤ) : DistSummary :=
  { count := some xs.length
    mean := if xs.length ≠ 0 then some (pyRound 2 (meanQ xs)) else none
    p50 := if xs.length ≠ 0 then (quantileLin (1/2) xs).map (pyRound 2) else none
    p95 := if xs.length ≠ 0 then (quantileLin (19/20) xs).map (pyRound 2) else none }

/-- Non-null `error_code` values of `ERROR`-type events. -/
def errorCodes (events : List Event) : List String :=
  (events.filter fun e => decide (e.event_type = some "ERROR")).filterMap (·.error_code)

/-- `Series.value_counts()`: occurrence counts sorted by count descending
(stable on first-occurrence order). -/
def valueCounts (l : List String) : List (String × ℕ) :=
  List.insertionSort (fun a b => b.2 ≤ a.2)
    ((dedupByKey id l).map fun c => (c, (l.filter fun x => decide (x = c)).length))

/-- `errors.value_counts().head(10)`. -/
def topErrorCodes (events : List Event) : List (String × ℕ) :=
  (valueCounts (errorCodes events)).take 10

/-- The KPI snapshot returned by `compute_kpis` (alerts are layered on by
the caller). -/
structure KpiResult where
  jobs_total : ℕ
  jobs_nok : ℕ
  scrap_rate : ℚ
  cycle_time_sec : DistSummary
  arc_on_time_sec : DistSummary
  top_error_codes : List (String × ℕ)
deriving DecidableEq

/-- `compute_kpis(events, quality)` from `report/kpi.py`. -/
def compute_kpis (events : List Event) (quality : List QualityRow) : KpiResult :=
  let cycle := acceptedCycleTimes events
  let arc := acceptedArcTimes events
  let results := quality.map fun q => q.result.map strUpper
  let total_jobs := quality.length
  let nok_jobs := (results.filter fun r => decide (r = some "NOK")).length
  let scrap_rate : ℚ := if total_jobs ≠ 0 then (nok_jobs : ℚ) / (total_jobs : ℚ) else 0
  { jobs_total := total_jobs
    jobs_nok := nok_jobs
    scrap_rate := pyRound 4 scrap_rate
    cycle_time_sec := summarize cycle
    arc_on_time_sec := summarize arc
    top_error_codes := topErrorCodes events }

/-! ## Cleaner (`transform/cleaning.py`) -/

/-- The fixed allowed event-type set. -/
def EVENT_TYPES_ALLOWED : List String :=
  ["START_CYCLE", "ARC_ON", "ARC_OFF", "END_CYCLE", "ERROR", "RESET"]

/-- String normalization of one event row (`astype("string").str.strip()`
on the six string columns, modelled by `strStrip`). -/
def normalizeEvent (e : Event) : Event :=
  { ts := e.ts
    cell_id := e.cell_id.map strStrip
    robot_id := e.robot_id.map strStrip
    job_id := e.job_id.map strStrip
    program_id := e.program_id.map strStrip
    event_type := e.event_type.map strStrip
    error_code := e.error_code.map strStrip }

/-- Null out an event type outside the allowed set
(`df.loc[~isin(allowed), "event_type"] = pd.NA`). -/
def restrictEventType (e : Event) : Event :=
  { e with
    event_type :=
      match e.event_type with
      | some t => if EVENT_TYPES_ALLOWED.contains t then some t else none
      | none => none }

/-- The critical-field presence check of the cleaner's `dropna(subset=...)`. -/
def criticalPresent (e : Event) : Bool :=
  e.ts.isSome && e.cell_id.isSome && e.robot_id.isSome && e.job_id.isSome &&
    e.program_id.isSome && e.event_type.isSome

/-- The full 7-tuple identity key used for event deduplication. -/
def key7 (e : Event) :
    Option ℤ × Option String × Option String × Option String × Option String ×
      Option String × Option String :=
  (e.ts, e.cell_id, e.robot_id, e.job_id, e.program_id, e.event_type, e.error_code)

/-- The final `sort_values(["cell_id", "robot_id", "job_id", "ts"])` order of
the cleaner (all key fields are present at that point; missing values
compare via defaults). -/
def cleanSortLE (a b : Event) : Prop :=
  a.cell_id.getD "" < b.cell_id.getD "" ∨
    (a.cell_id.getD "" = b.cell_id.getD "" ∧
      (a.robot_id.getD "" < b.robot_id.getD "" ∨
        (a.robot_id.getD "" = b.robot_id.getD "" ∧
          (a.job_id.getD "" < b.job_id.getD "" ∨
            (a.job_id.getD "" = b.job_id.getD "" ∧ a.ts.getD 0 ≤ b.ts.getD 0)))))

instance : DecidableRel cleanSortLE := fun a b => by
  unfold cleanSortLE; infer_instance

/-- `parse_and_clean_events` from `transform/cleaning.py`: normalize,
invalidate unknown event types, drop rows missing critical fields,
deduplicate by the 7-tuple key, sort. -/
def parse_and_clean_events (events : List Event) : List Event :=
  let df := events.map fun e => restrictEventType (normalizeEvent e)
  let df := df.filter criticalPresent
  let df := dedupByKey key7 df
  List.insertionSort cleanSortLE df

/-- String normalization of one quality row. -/
def normalizeQuality (q : QualityRow) : QualityRow :=
  { job_id := q.job_id.map strStrip
    cell_id := q.cell_id.map strStrip
    robot_id := q.robot_id.map strStrip
    program_id := q.program_id.map strStrip
    result := q.result.map strStrip
    reason := q.reason.map strStrip
    rework_needed := q.rework_needed }

/-- Required-field presence for quality rows. -/
def qualityRequired (q : QualityRow) : Bool :=
  q.job_id.isSome && q.cell_id.isSome && q.robot_id.isSome && q.program_id.isSome &&
    q.result.isSome

/-- `parse_and_clean_quality` from `transform/cleaning.py`. -/
def parse_and_clean_quality (quality : List QualityRow) : List QualityRow :=
  let df := quality.map normalizeQuality
  let df := df.filter qualityRequired
  let df := df.map fun q =>
    { q with
      result :=
        match q.result.map strUpper with
        | some r => if r = "OK" ∨ r = "NOK" then some r else none
        | none => none }
  let df := df.filter fun q => q.result.isSome
  dedupByKey (·.job_id) df

/-! ## Data-quality auditor (`transform/dq.py`) -/

/-- The fixed-shape DQ diagnostic record. -/
structure DQReport where
  events_rows_in : ℕ
  events_rows_out : ℕ
  quality_rows_in : ℕ
  quality_rows_out : ℕ
  missing_ts_in_raw : ℕ
  duplicates_removed : ℕ
  arc_on_without_off : ℕ
  arc_off_without_on : ℕ
  missing_start_end_pairs : ℕ
deriving DecidableEq

/-- The three-column pairing key (`groupby(["cell_id","robot_id","job_id"],
dropna=False)` keeps groups with missing keys, hence `Option` components). -/
def key3 (e : Event) : Option String × Option String × Option String :=
  (e.cell_id, e.robot_id, e.job_id)

/-- Occurrences of one event type inside a group
(`g["event_type"].tolist().count(t)`). -/
def countType (g : List Event) (t : String) : ℕ :=
  (g.filter fun e => decide (e.event_type = some t)).length

/-- One iteration of the ARC/START-END pairing loop of `build_dq_report`
for group key `k`: update the running
`(arc_on_without_off, arc_off_without_on, missing_start_end_pairs)`. -/
def dqStep (clean : List Event) (acc : ℕ × ℕ × ℕ)
    (k : Option String × Option String × Option String) : ℕ × ℕ × ℕ :=
  let g := clean.filter fun e => decide (key3 e = k)
  let arcOn := countType g "ARC_ON"
  let arcOff := countType g "ARC_OFF"
  let acc1 :=
    if arcOn > arcOff then (acc.1 + (arcOn - arcOff), acc.2.1, acc.2.2)
    else if arcOff > arcOn then (acc.1, acc.2.1 + (arcOff - arcOn), acc.2.2)
    else acc
  let s := countType g "START_CYCLE"
  let e := countType g "END_CYCLE"
  if s ≠ e then (acc1.1, acc1.2.1, acc1.2.2 + ((s : ℤ) - (e : ℤ)).natAbs) else acc1

/-- The ARC/START-END pairing loop of `build_dq_report` over the groups of
the cleaned events. -/
def dqPairCounts (clean : List Event) : ℕ × ℕ × ℕ :=
  (dedupByKey id (clean.map key3)).foldl (dqStep clean) (0, 0, 0)

/-- `build_dq_report` from `transform/dq.py`. -/
def build_dq_report (events_raw events_clean : List Event)
    (quality_raw quality_clean : List QualityRow) : DQReport :=
  let missing_ts_in_raw := (events_raw.filter fun e => e.ts.isNone).length
  let raw_dupes := duplicatedCount key7 events_raw
  let pair := dqPairCounts events_clean
  { events_rows_in := events_raw.length
    events_rows_out := events_clean.length
    quality_rows_in := quality_raw.length
    quality_rows_out := quality_clean.length
    missing_ts_in_raw := missing_ts_in_raw
    duplicates_removed := max 0 raw_dupes
    arc_on_without_off := pair.1
    arc_off_without_on := pair.2.1
    missing_start_end_pairs := pair.2.2 }

/-! ## Alert classifier (`report/alerts.py`) -/

/-- A YAML threshold value: a number, or a value `float()` cannot convert. -/
inductive CfgVal where
  | num : ℚ → CfgVal
  | nonNumeric : CfgVal
deriving DecidableEq

/-- Python `float(v)` on a config value, `none` when it raises. -/
def CfgVal.toNum : CfgVal → Option ℚ
  | num q => some q
  | nonNumeric => none

/-- One metric's threshold block in the YAML config. -/
structure MetricCfg where
  warning_gt : Option CfgVal
  alert_gt : Option CfgVal
deriving DecidableEq

/-- The threshold config dict keyed by metric name. -/
abbrev ThresholdsCfg := List (String × MetricCfg)

/-- `dict.get(metric)` on the config. -/
def lookupCfg (t : ThresholdsCfg) (metric : String) : Option MetricCfg :=
  (t.find? fun p => decide (p.1 = metric)).map (·.2)

/-- `_get_thresholds` from `report/alerts.py`: fetch the `(warning_gt,
alert_gt)` pair for `metric`, falling back to the hardcoded defaults when
the config is absent, lacks the metric, or holds non-numeric values. -/
def get_thresholds (thresholds : Option ThresholdsCfg) (metric : String)
    (default_warning default_alert : ℚ) : ℚ × ℚ :=
  match thresholds with
  | some cfg =>
    match lookupCfg cfg metric with
    | some metric_cfg =>
      let w := metric_cfg.warning_gt.getD (CfgVal.num default_warning)
      let a := metric_cfg.alert_gt.getD (CfgVal.num default_alert)
      match w.toNum, a.toNum with
      | some fw, some fa => (fw, fa)
      | _, _ => (default_warning, default_alert)
    | none => (default_warning, default_alert)
  | none => (default_warning, default_alert)

/-- One alert record `{metric, value, level, thresholds}`. -/
structure AlertRecord where
  metric : String
  value : ℚ
  level : String
  warning_gt : ℚ
  alert_gt : ℚ
deriving DecidableEq

/-- `alert_scrap_rate` from `report/alerts.py`. -/
def alert_scrap_rate (scrap_rate : ℚ) (thresholds : Option ThresholdsCfg) : AlertRecord :=
  let p := get_thresholds thresholds "scrap_rate" 0.08 0.10
  let level :=
    if scrap_rate > p.2 then "ALERT"
    else if scrap_rate > p.1 then "WARNING"
    else "OK"
  { metric := "scrap_rate", value := pyRound 4 scrap_rate, level := level,
    warning_gt := p.1, alert_gt := p.2 }

/-- `alert_long_downtime` from `report/alerts.py`. -/
def alert_long_downtime (downtime_sec : ℚ) (thresholds : Option ThresholdsCfg) : AlertRecord :=
  let p := get_thresholds thresholds "downtime_event_sec" 300 1800
  let level :=
    if downtime_sec > p.2 then "ALERT"
    else if downtime_sec > p.1 then "WARNING"
    else "OK"
  { metric := "downtime_event_sec", value := pyRound 1 downtime_sec, level := level,
    warning_gt := p.1, alert_gt := p.2 }

/-- `alert_cycle_time_p95` from `report/alerts.py`. -/
def alert_cycle_time_p95 (p95_cycle_time_sec : ℚ) (thresholds : Option ThresholdsCfg) :
    AlertRecord :=
  let p := get_thresholds thresholds "cycle_time_p95_sec" 120 150
  let level :=
    if p95_cycle_time_sec > p.2 then "ALERT"
    else if p95_cycle_time_sec > p.1 then "WARNING"
    else "OK"
  { metric := "cycle_time_p95_sec", value := pyRound 1 p95_cycle_time_sec, level := level,
    warning_gt := p.1, alert_gt := p.2 }

/-! ## Downtime analyzer (`cli.py`, `_max_downtime_event_seconds`) -/

/-- The `dropna(subset=["ts","cell_id","robot_id","event_type"])` check. -/
def downtimeValid (e : Event) : Bool :=
  e.ts.isSome && e.cell_id.isSome && e.robot_id.isSome && e.event_type.isSome

/-- Restriction to `ERROR`/`RESET` events. -/
def isErrorOrReset (e : Event) : Bool :=
  decide (e.event_type = some "ERROR") || decide (e.event_type = some "RESET")

/-- The timestamp sort order (`sort_values("ts")`). -/
def tsLE (a b : Event) : Prop :=
  a.ts.getD 0 ≤ b.ts.getD 0

instance : DecidableRel tsLE := fun a b => by
  unfold tsLE; infer_instance

/-- The `(cell_id, robot_id)` stream key of the downtime analyzer. -/
def streamKey (e : Event) : Option String × Option String :=
  (e.cell_id, e.robot_id)

/-- The per-stream scan of `_max_downtime_event_seconds`: for each `ERROR`
row, look at the first `RESET` strictly after it in the (timestamp-sorted)
stream, and raise the running maximum when `0 < dt <= 3600`. -/
def streamScan : List Event → ℤ → ℤ
  | [], acc => acc
  | e :: rest, acc =>
    streamScan rest
      (if e.event_type = some "ERROR" then
        match rest.find? fun r => decide (r.event_type = some "RESET") with
        | some r =>
          let dt := r.ts.getD 0 - e.ts.getD 0
          if 0 < dt ∧ dt ≤ 3600 ∧ acc < dt then dt else acc
        | none => acc
      else acc)

/-- The timestamp-sorted `ERROR`/`RESET` sub-table of an events table. -/
def erTable (events : List Event) : List Event :=
  List.insertionSort tsLE ((events.filter downtimeValid).filter isErrorOrReset)

/-- `_max_downtime_event_seconds` from `cli.py`: the maximum sane
`ERROR -> next RESET` interval (seconds) over all `(cell_id, robot_id)`
streams, `0` when none qualifies. The returned float is integer-valued on
integer timestamps, so the result is `ℤ`. -/
def max_downtime_event_seconds (events : List Event) : ℤ :=
  let er := erTable events
  if er.isEmpty then 0
  else
    (dedupByKey id (er.map streamKey)).foldl
      (fun acc k => streamScan (er.filter fun e => decide (streamKey e = k)) acc) 0

/-- The accepted interval durations of one stream, declaratively: one
candidate per `ERROR` row (elapsed seconds to the first following `RESET`),
kept when `0 < dt <= 3600`. -/
def acceptedDtsStream : List Event → List ℤ
  | [] => []
  | e :: rest =>
    (if e.event_type = some "ERROR" then
      match rest.find? fun r => decide (r.event_type = some "RESET") with
      | some r =>
        let dt := r.ts.getD 0 - e.ts.getD 0
        if 0 < dt ∧ dt ≤ 3600 then [dt] else []
      | none => []
    else []) ++ acceptedDtsStream rest

/-- All accepted interval durations over all streams of an events table. -/
def acceptedDowntimes (events : List Event) : List ℤ :=
  ((dedupByKey id ((erTable events).map streamKey)).map fun k =>
    acceptedDtsStream ((erTable events).filter fun e => decide (streamKey e = k))).flatten

/-! ## KPI report enrichment (`cli.py`, `cmd_report_kpi` / `_compute_kpi_plus`) -/

/-- The computed part of the KPI report payload written by `cmd_report_kpi`
(lines 142-158 of `cli.py`; file writing and console output omitted). -/
structure KpiReport where
  kpis : KpiResult
  max_downtime_event_sec : ℚ
  cycle_time_p95_sec : ℚ
  alerts : List AlertRecord
deriving DecidableEq

/-- The enrichment performed by `cmd_report_kpi`: add
`max_downtime_event_sec`, coerce a missing/zero cycle p95 to `0.0` via
Python's `or`, and attach the three alerts. -/
def kpi_report_payload (events : List Event) (quality : List QualityRow)
    (thresholds : Option ThresholdsCfg) : KpiReport :=
  let kpis := compute_kpis events quality
  let max_dt : ℚ := (max_downtime_event_seconds events : ℚ)
  let p95_cycle : ℚ := pyOrQ kpis.cycle_time_sec.p95 0
  { kpis := kpis
    max_downtime_event_sec := pyRound 1 max_dt
    cycle_time_p95_sec := pyRound 1 p95_cycle
    alerts :=
      [alert_scrap_rate kpis.scrap_rate thresholds,
       alert_long_downtime max_dt thresholds,
       alert_cycle_time_p95 p95_cycle thresholds] }

/-- The result of `_compute_kpi_plus` from `cli.py`: `compute_kpis` plus the
two extra top-level fields (no alerts). -/
structure KpiPlus where
  kpis : KpiResult
  max_downtime_event_sec : ℚ
  cycle_time_p95_sec : ℚ
deriving DecidableEq

/-- `_compute_kpi_plus` from `cli.py`. -/
def compute_kpi_plus (events : List Event) (quality : List QualityRow) : KpiPlus :=
  let kpis := compute_kpis events quality
  { kpis := kpis
    max_downtime_event_sec := pyRound 1 ((max_downtime_event_seconds events : ℤ) : ℚ)
    cycle_time_p95_sec := pyRound 1 (pyOrQ kpis.cycle_time_sec.p95 0) }

/-! ## Drilldown aggregator (`cli.py`, `_drilldown_report`) -/

/-- An events DataFrame whose column set matters (the drilldown aggregator
checks column presence before touching rows). -/
structure EventsTable where
  columns : List String
  rows : List Event

/-- A quality DataFrame with its column set. -/
structure QualityTable where
  columns : List String
  rows : List QualityRow

/-- One reduced per-cell or per-robot KPI summary of the drilldown report.
`robot_id` is `none` in per-cell summaries (the per-cell dict has no
`robot_id` key). The three metric fields are nullable in the JSON schema;
the builder always fills them. -/
structure EntitySummary where
  cell_id : String
  robot_id : Option String
  jobs_total : ℕ
  jobs_nok : ℕ
  scrap_rate : Option ℚ
  max_downtime_event_sec : Option ℚ
  cycle_time_p95_sec : Option ℚ
deriving DecidableEq

/-- `_top` from `_drilldown_report`: drop rows whose metric is null, sort
the rest descending by the metric (Python's stable `list.sort(...,
reverse=True)`), keep the first `top_n`. -/
def top_offenders {α : Type} (top_n : ℕ) (rows : List α) (metric : α → Option ℚ) :
    List α :=
  (List.insertionSort (fun a b => (metric b).getD 0 ≤ (metric a).getD 0)
    (rows.filter fun r => (metric r).isSome)).take top_n

/-- `sorted(set(quality.cell_id.dropna()) | set(events.cell_id.dropna()))`. -/
def drilldownCellIds (events : EventsTable) (quality : QualityTable) : List String :=
  List.insertionSort (· ≤ ·)
    (dedupByKey id
      (quality.rows.filterMap (·.cell_id) ++ events.rows.filterMap (·.cell_id)))

/-- The per-cell summary for one cell id: slice both tables to the cell,
skip the cell when both slices are empty, otherwise reduce
`_compute_kpi_plus`. -/
def cellSummary (events : EventsTable) (quality : QualityTable) (c : String) :
    Option EntitySummary :=
  let ev_c := events.rows.filter fun e => decide (e.cell_id = some c)
  let qu_c := quality.rows.filter fun q => decide (q.cell_id = some c)
  if ev_c.isEmpty && qu_c.isEmpty then none
  else
    let k := compute_kpi_plus ev_c qu_c
    some
      { cell_id := c, robot_id := none, jobs_total := k.kpis.jobs_total,
        jobs_nok := k.kpis.jobs_nok, scrap_rate := some k.kpis.scrap_rate,
        max_downtime_event_sec := some k.max_downtime_event_sec,
        cycle_time_p95_sec := some k.cycle_time_p95_sec }

/-- The `per_cell` list of the drilldown report. -/
def perCellSummaries (events : EventsTable) (quality : QualityTable) :
    List EntitySummary :=
  (drilldownCellIds events quality).filterMap (cellSummary events quality)

/-- Lexicographic order on `(cell_id, robot_id)` pairs (Python tuple sort). -/
def pairLE (a b : String × String) : Prop :=
  a.1 < b.1 ∨ (a.1 = b.1 ∧ a.2 ≤ b.2)

instance : DecidableRel pairLE := fun a b => by
  unfold pairLE; infer_instance

/-- The `(cell_id, robot_id)` pairs of one table: `zip` of the two
independently `dropna`'d columns, as in the source. -/
def tablePairs (cells robots : List (Option String)) : List (String × String) :=
  List.zip (cells.filterMap id) (robots.filterMap id)

/-- `sorted(set(quality pairs) | set(events pairs))`. -/
def drilldownPairs (events : EventsTable) (quality : QualityTable) :
    List (String × String) :=
  List.insertionSort pairLE
    (dedupByKey id
      (tablePairs (quality.rows.map (·.cell_id)) (quality.rows.map (·.robot_id)) ++
        tablePairs (events.rows.map (·.cell_id)) (events.rows.map (·.robot_id))))

/-- The per-robot summary for one `(cell_id, robot_id)` pair. -/
def robotSummary (events : EventsTable) (quality : QualityTable)
    (p : String × String) : Option EntitySummary :=
  let ev_r := events.rows.filter fun e =>
    decide (e.cell_id = some p.1) && decide (e.robot_id = some p.2)
  let qu_r := quality.rows.filter fun q =>
    decide (q.cell_id = some p.1) && decide (q.robot_id = some p.2)
  if ev_r.isEmpty && qu_r.isEmpty then none
  else
    let k := compute_kpi_plus ev_r qu_r
    some
      { cell_id := p.1, robot_id := some p.2, jobs_total := k.kpis.jobs_total,
        jobs_nok := k.kpis.jobs_nok, scrap_rate := some k.kpis.scrap_rate,
        max_downtime_event_sec := some k.max_downtime_event_sec,
        cycle_time_p95_sec := some k.cycle_time_p95_sec }

/-- The `per_robot` list of the drilldown report (computed only when both
tables have a `robot_id` column). -/
def perRobotSummaries (events : EventsTable) (quality : QualityTable) :
    List EntitySummary :=
  if "robot_id" ∈ events.columns ∧ "robot_id" ∈ quality.columns then
    (drilldownPairs events quality).filterMap (robotSummary events quality)
  else []

/-- The drilldown report payload. Keys absent from the Python dict in the
degraded mode are modelled as `none`/`[]`; the `counts` entry is the pair
of list lengths and is not repeated here. -/
structure DrilldownReport where
  generated_at : String
  error : Option String
  per_cell : List EntitySummary
  per_robot : List EntitySummary
  cells_by_scrap_rate : List EntitySummary
  cells_by_max_downtime : List EntitySummary
  cells_by_cycle_p95 : List EntitySummary
  robots_by_scrap_rate : List EntitySummary
  robots_by_max_downtime : List EntitySummary
  robots_by_cycle_p95 : List EntitySummary

/-- `_drilldown_report` from `cli.py`. `started_at` stands for the
`datetime.now()` reading. -/
def drilldown_report (events : EventsTable) (quality : QualityTable)
    (top_n : ℕ) (started_at : String) : DrilldownReport :=
  if "cell_id" ∉ events.columns ∨ "cell_id" ∉ quality.columns then
    { generated_at := started_at
      error := some "Missing 'cell_id' in events/quality. Drilldown needs cell_id columns."
      per_cell := [], per_robot := []
      cells_by_scrap_rate := [], cells_by_max_downtime := [], cells_by_cycle_p95 := []
      robots_by_scrap_rate := [], robots_by_max_downtime := [], robots_by_cycle_p95 := [] }
  else
    let per_cell := perCellSummaries events quality
    let per_robot := perRobotSummaries events quality
    { generated_at := started_at
      error := none
      per_cell := per_cell
      per_robot := per_robot
      cells_by_scrap_rate := top_offenders top_n per_cell (·.scrap_rate)
      cells_by_max_downtime := top_offenders top_n per_cell (·.max_downtime_event_sec)
      cells_by_cycle_p95 := top_offenders top_n per_cell (·.cycle_time_p95_sec)
      robots_by_scrap_rate := top_offenders top_n per_robot (·.scrap_rate)
      robots_by_max_downtime := top_offenders top_n per_robot (·.max_downtime_event_sec)
      robots_by_cycle_p95 := top_offenders top_n per_robot (·.cycle_time_p95_sec) }

/-! ## Concrete fixtures used by the theorems -/

/-- An event row of cell `C01`, robot `R01`, program `P01`. -/
def mkEv (t : ℤ) (job ty : String) : Event :=
  ⟨some t, some "C01", some "R01", some job, some "P01", some ty, none⟩

/-- A quality row of cell `C01`, robot `R01`, program `P01`. -/
def mkQ (job r : String) : QualityRow :=
  ⟨some job, some "C01", some "R01", some "P01", some r, none, some false⟩

/-- Boundary fixture: job `J1` spans 5000 s, job `J2` spans 90 s. -/
def evBoundary : List Event :=
  [mkEv 0 "J1" "START_CYCLE", mkEv 5000 "J1" "END_CYCLE",
   mkEv 0 "J2" "START_CYCLE", mkEv 90 "J2" "END_CYCLE"]

/-- One group with two `START_CYCLE` (10, 0) and two `END_CYCLE` (50, 90)
events: span = latest end − earliest start = 90. -/
def evMinMax : List Event :=
  [mkEv 10 "J1" "START_CYCLE", mkEv 0 "J1" "START_CYCLE",
   mkEv 50 "J1" "END_CYCLE", mkEv 90 "J1" "END_CYCLE"]

/-- A zero-duration cycle: `START_CYCLE` and `END_CYCLE` at the same
timestamp. -/
def evZero : List Event :=
  [mkEv 0 "J1" "START_CYCLE", mkEv 0 "J1" "END_CYCLE"]

/-- Three quality rows, one of them NOK (written lowercase). -/
def quality3 : List QualityRow :=
  [mkQ "J1" "OK", mkQ "J2" "OK", mkQ "J3" "nok"]

/-- A single valid raw event row, used duplicated for the dedup claim. -/
def r0 : Event := mkEv 0 "J1" "START_CYCLE"

/-- Downtime fixture: `ERROR` at t=0, `RESET` at t=100 on one stream. -/
def evDown1 : List Event :=
  [mkEv 0 "J1" "ERROR", mkEv 100 "J1" "RESET"]

/-- Downtime fixture: `ERROR` at t=0, `RESET` at t=4000 (> 3600 s gap). -/
def evDown2 : List Event :=
  [mkEv 0 "J1" "ERROR", mkEv 4000 "J1" "RESET"]

/-- Downtime fixture: two `ERROR`s (t=0, t=50) cleared by one `RESET`
(t=100). -/
def evDown3 : List Event :=
  [mkEv 0 "J1" "ERROR", mkEv 50 "J1" "ERROR", mkEv 100 "J1" "RESET"]

/-- Drilldown-ranking fixture: four per-cell summaries with scrap rates
0.5, 0.3, 0.9, 0.1. -/
def sumA : EntitySummary := ⟨"A", none, 2, 1, some 0.5, some 0, some 0⟩

/-- Second ranking fixture row (scrap rate 0.3). -/
def sumB : EntitySummary := ⟨"B", none, 10, 3, some 0.3, some 0, some 0⟩

/-- Third ranking fixture row (scrap rate 0.9). -/
def sumC : EntitySummary := ⟨"C", none, 10, 9, some 0.9, some 0, some 0⟩

/-- Fourth ranking fixture row (scrap rate 0.1). -/
def sumD : EntitySummary := ⟨"D", none, 10, 1, some 0.1, some 0, some 0⟩

/-! ## Theorems -/

/-- The ALERT/WARNING/OK chain of the alert functions, characterized by
strict threshold comparisons. -/
lemma levelChain (v w a : ℚ) (hwa : w ≤ a) :
    ((if a < v then "ALERT" else if w < v then "WARNING" else "OK") = "ALERT" ↔ a < v) ∧
    ((if a < v then "ALERT" else if w < v then "WARNING" else "OK") = "WARNING" ↔
      v ≤ a ∧ w < v) ∧
    ((if a < v then "ALERT" else if w < v then "WARNING" else "OK") = "OK" ↔ v ≤ w) := by
  split_ifs with h1 h2 <;> refine ⟨?_, ?_, ?_⟩ <;> (simp_all; try linarith)

/-- C3: with no threshold source (`thresholds = None`) each alert function
resolves its hardcoded default pair — scrap_rate `(0.08, 0.10)`,
downtime_event_sec `(300, 1800)`, cycle_time_p95_sec `(120, 150)` — and
returns ALERT iff the value strictly exceeds `alert_gt`, else WARNING iff
it strictly exceeds `warning_gt`, else OK; a value exactly equal to a
threshold is not escalated (`0.08 -> OK`, `0.081 -> WARNING`,
`0.101 -> ALERT`). -/
theorem claim_c3 (v : ℚ) :
    ((alert_scrap_rate v none).warning_gt = 0.08 ∧
      (alert_scrap_rate v none).alert_gt = 0.10 ∧
      ((alert_scrap_rate v none).level = "ALERT" ↔ 0.10 < v) ∧
      ((alert_scrap_rate v none).level = "WARNING" ↔ v ≤ 0.10 ∧ 0.08 < v) ∧
      ((alert_scrap_rate v none).level = "OK" ↔ v ≤ 0.08)) ∧
    ((alert_long_downtime v none).warning_gt = 300 ∧
      (alert_long_downtime v none).alert_gt = 1800 ∧
      ((alert_long_downtime v none).level = "ALERT" ↔ 1800 < v) ∧
      ((alert_long_downtime v none).level = "WARNING" ↔ v ≤ 1800 ∧ 300 < v) ∧
      ((alert_long_downtime v none).level = "OK" ↔ v ≤ 300)) ∧
    ((alert_cycle_time_p95 v none).warning_gt = 120 ∧
      (alert_cycle_time_p95 v none).alert_gt = 150 ∧
      ((alert_cycle_time_p95 v none).level = "ALERT" ↔ 150 < v) ∧
      ((alert_cycle_time_p95 v none).level = "WARNING" ↔ v ≤ 150 ∧ 120 < v) ∧
      ((alert_cycle_time_p95 v none).level = "OK" ↔ v ≤ 120)) ∧
    (alert_scrap_rate 0.08 none).level = "OK" ∧
    (alert_scrap_rate 0.081 none).level = "WARNING" ∧
    (alert_scrap_rate 0.101 none).level = "ALERT" := by
  have h1 := levelChain v 0.08 0.10 (by norm_num)
  have h2 := levelChain v 300 1800 (by norm_num)
  have h3 := levelChain v 120 150 (by norm_num)
  refine ⟨⟨rfl, rfl, ?_, ?_, ?_⟩, ⟨rfl, rfl, ?_, ?_, ?_⟩, ⟨rfl, rfl, ?_, ?_, ?_⟩, ?_, ?_, ?_⟩ <;>
    simp only [alert_scrap_rate, alert_long_downtime, alert_cycle_time_p95,
      get_thresholds, gt_iff_lt]
  · exact h1.1
  · exact h1.2.1
  · exact h1.2.2
  · exact h2.1
  · exact h2.2.1
  · exact h2.2.2
  · exact h3.1
  · exact h3.2.1
  · exact h3.2.2
  all_goals norm_num

/-- C9: when either input table lacks a `cell_id` column, the drilldown
aggregator returns a minimal report (generation timestamp plus an explicit
error field, no per-cell/per-robot KPIs and no offender lists) instead of
raising; when both tables have `cell_id`, the report carries no error. -/
theorem claim_c9 (et : EventsTable) (qt : QualityTable) (n : ℕ) (s : String) :
    ("cell_id" ∉ et.columns ∨ "cell_id" ∉ qt.columns →
      (drilldown_report et qt n s).generated_at = s ∧
      ((drilldown_report et qt n s).error).isSome ∧
      (drilldown_report et qt n s).per_cell = [] ∧
      (drilldown_report et qt n s).per_robot = [] ∧
      (drilldown_report et qt n s).cells_by_scrap_rate = [] ∧
      (drilldown_report et qt n s).robots_by_scrap_rate = []) ∧
    ("cell_id" ∈ et.columns → "cell_id" ∈ qt.columns →
      (drilldown_report et qt n s).error = none ∧
      (drilldown_report et qt n s).generated_at = s) := by
  constructor
  · intro h
    unfold drilldown_report
    rw [if_pos h]
    exact ⟨rfl, rfl, rfl, rfl, rfl, rfl⟩
  · intro h1 h2
    have hc : ¬ ("cell_id" ∉ et.columns ∨ "cell_id" ∉ qt.columns) := by
      push_neg
      exact ⟨h1, h2⟩
    unfold drilldown_report
    rw [if_neg hc]
    exact ⟨rfl, rfl⟩

/-- Witness for C9: a concrete events table without `cell_id` yields an
error-flagged report; concrete tables with `cell_id` yield none. -/
theorem claim_c9_witness :
    ((drilldown_report ⟨["ts"], []⟩ ⟨["cell_id"], []⟩ 5 "t").error).isSome ∧
    (drilldown_report ⟨["cell_id"], []⟩ ⟨["cell_id"], []⟩ 5 "t").error = none :=
  ⟨((claim_c9 ⟨["ts"], []⟩ ⟨["cell_id"], []⟩ 5 "t").1 (Or.inl (by decide))).2.1,
    ((claim_c9 ⟨["cell_id"], []⟩ ⟨["cell_id"], []⟩ 5 "t").2 (by decide) (by decide)).1⟩

/-- C1 counterexample: the code keeps zero-length cycles (`cycle >= 0`), so
a `START_CYCLE`/`END_CYCLE` pair at the same timestamp produces the value
`0` — outside the claimed interval `(0, 3600]` — in the cycle-time
distribution, and it is counted. -/
theorem claim_c1_counterexample :
    acceptedCycleTimes evZero = [0] ∧
    (compute_kpis evZero []).cycle_time_sec.count = some 1 ∧
    ¬(∀ v ∈ acceptedCycleTimes evZero, 0 < v ∧ v ≤ 3600) := by
  refine ⟨by decide, by decide, ?_⟩
  intro h
  exact absurd ((h 0 (by decide)).1) (by decide)

/-- C1 (amended): each group's cycle time is the latest `END_CYCLE`
timestamp minus the earliest `START_CYCLE` timestamp in seconds, and no
value outside `[0, 3600]` (rather than `(0, 3600]`) enters the cycle-time
distribution: a 5000 s pair is excluded, a 90 s pair is included, and a
group's span is taken between its earliest start and latest end. -/
theorem claim_c1 :
    (∀ events : List Event, ∀ v ∈ acceptedCycleTimes events, 0 ≤ v ∧ v ≤ 3600) ∧
    acceptedCycleTimes evBoundary = [90] ∧
    (compute_kpis evBoundary []).cycle_time_sec.count = some 1 ∧
    acceptedCycleTimes evMinMax = [90] ∧
    spanSeconds evMinMax "START_CYCLE" "END_CYCLE" ("C01", "R01", "J1", "P01") = some 90 := by
  refine ⟨?_, by decide, by decide, by decide, by decide⟩
  intro events v hv
  unfold acceptedCycleTimes spanSamples at hv
  rw [List.mem_filter] at hv
  have := hv.2
  simp only [Bool.and_eq_true, decide_eq_true_eq] at this
  exact this

/-- Witness for C1: the bounds instantiated at the 90 s sample of the
boundary fixture. -/
theorem claim_c1_witness : (0 : ℤ) ≤ 90 ∧ (90 : ℤ) ≤ 3600 :=
  claim_c1.1 evBoundary 90 (by decide)

/-- C4 counterexample: on an empty accepted sample the `count` field of the
distribution summary is `0`, not null — only `mean`, `p50` and `p95` are
null. -/
theorem claim_c4_counterexample :
    acceptedCycleTimes [] = [] ∧
    (compute_kpis [] []).cycle_time_sec.count = some 0 ∧
    (compute_kpis [] []).cycle_time_sec.count ≠ none := by
  exact ⟨by decide, by decide, by decide⟩

/-- C4 (amended): when the accepted cycle-time (resp. arc-on-time) sample
is empty, `mean`, `p50` and `p95` are null while `count` is `0`; when the
sample is non-empty, `count` is the sample size and `mean`/`p50`/`p95` are
the sample statistics rounded to 2 decimal places. -/
theorem claim_c4 (events : List Event) (quality : List QualityRow) :
    (acceptedCycleTimes events = [] →
      (compute_kpis events quality).cycle_time_sec = ⟨some 0, none, none, none⟩) ∧
    (acceptedArcTimes events = [] →
      (compute_kpis events quality).arc_on_time_sec = ⟨some 0, none, none, none⟩) ∧
    (acceptedCycleTimes events ≠ [] →
      (compute_kpis events quality).cycle_time_sec =
        ⟨some (acceptedCycleTimes events).length,
         some (pyRound 2 (meanQ (acceptedCycleTimes events))),
         (quantileLin (1/2) (acceptedCycleTimes events)).map (pyRound 2),
         (quantileLin (19/20) (acceptedCycleTimes events)).map (pyRound 2)⟩) ∧
    (acceptedArcTimes events ≠ [] →
      (compute_kpis events quality).arc_on_time_sec =
        ⟨some (acceptedArcTimes events).length,
         some (pyRound 2 (meanQ (acceptedArcTimes events))),
         (quantileLin (1/2) (acceptedArcTimes events)).map (pyRound 2),
         (quantileLin (19/20) (acceptedArcTimes events)).map (pyRound 2)⟩) := by
  refine ⟨fun h => ?_, fun h => ?_, fun h => ?_, fun h => ?_⟩ <;>
    simp [compute_kpis, summarize, h, List.length_eq_zero]

/-- Witness for C4: the empty-sample case on empty tables and the
non-empty case on the boundary fixture (whose accepted sample is `[90]`). -/
theorem claim_c4_witness :
    (compute_kpis [] []).cycle_time_sec = ⟨some 0, none, none, none⟩ ∧
    (compute_kpis evBoundary []).cycle_time_sec =
      ⟨some (acceptedCycleTimes evBoundary).length,
       some (pyRound 2 (meanQ (acceptedCycleTimes evBoundary))),
       (quantileLin (1/2) (acceptedCycleTimes evBoundary)).map (pyRound 2),
       (quantileLin (19/20) (acceptedCycleTimes evBoundary)).map (pyRound 2)⟩ :=
  ⟨(claim_c4 [] []).1 (by decide), (claim_c4 evBoundary []).2.2.1 (by decide)⟩

/-- C7 counterexample: `compute_kpis` rounds the scrap rate to 4 decimal
places, so with 3 jobs and 1 NOK the returned value is `0.3333`, not the
exact ratio `1/3`. -/
theorem claim_c7_counterexample :
    (compute_kpis [] quality3).scrap_rate = 3333/10000 ∧
    (compute_kpis [] quality3).scrap_rate ≠ 1/3 := by
  have hnok :
      ((quality3.map fun q => q.result.map strUpper).filter fun r =>
        decide (r = some "NOK")).length = 1 := by decide
  have htot : quality3.length = 3 := by decide
  constructor <;>
    · simp only [compute_kpis, hnok, htot]
      norm_num [pyRound, roundHalfEven]

/-- C7 (amended): `jobs_total` is the quality row count, `jobs_nok` the
count of rows whose uppercased result is `NOK`, and `scrap_rate` is
`jobs_nok / jobs_total` rounded to 4 decimal places (`0.0` when the quality
table is empty, for every events table). -/
theorem claim_c7 (events : List Event) (quality : List QualityRow) :
    (compute_kpis events quality).jobs_total = quality.length ∧
    (compute_kpis events quality).jobs_nok =
      ((quality.map fun q => q.result.map strUpper).filter fun r =>
        decide (r = some "NOK")).length ∧
    (compute_kpis events quality).scrap_rate =
      pyRound 4
        (if quality.length ≠ 0 then
          (((quality.map fun q => q.result.map strUpper).filter fun r =>
            decide (r = some "NOK")).length : ℚ) / (quality.length : ℚ)
        else 0) ∧
    (quality = [] →
      (compute_kpis events quality).jobs_total = 0 ∧
      (compute_kpis events quality).jobs_nok = 0 ∧
      (compute_kpis events quality).scrap_rate = 0) := by
  refine ⟨rfl, rfl, rfl, fun h => ?_⟩
  subst h
  refine ⟨rfl, rfl, ?_⟩
  simp only [compute_kpis]
  norm_num [pyRound, roundHalfEven]

/-- Witness for C7: the empty-quality case instantiated at empty tables. -/
theorem claim_c7_witness :
    (compute_kpis [] []).jobs_total = 0 ∧
    (compute_kpis [] []).jobs_nok = 0 ∧
    (compute_kpis [] []).scrap_rate = 0 :=
  (claim_c7 [] []).2.2.2 rfl

/-- The running-maximum scan of one stream equals a `foldl max` over the
stream's accepted interval durations. -/
lemma streamScan_eq (g : List Event) (acc : ℤ) :
    streamScan g acc = (acceptedDtsStream g).foldl max acc := by
  induction g generalizing acc with
  | nil => rfl
  | cons e rest ih =>
    by_cases he : e.event_type = some "ERROR"
    · cases hr : rest.find? fun r => decide (r.event_type = some "RESET") with
      | none =>
        simp only [streamScan, acceptedDtsStream, if_pos he, hr, List.nil_append]
        exact ih acc
      | some r =>
        by_cases hok : 0 < r.ts.getD 0 - e.ts.getD 0 ∧ r.ts.getD 0 - e.ts.getD 0 ≤ 3600
        · have hmax :
            (if 0 < r.ts.getD 0 - e.ts.getD 0 ∧ r.ts.getD 0 - e.ts.getD 0 ≤ 3600 ∧
                acc < r.ts.getD 0 - e.ts.getD 0 then
              r.ts.getD 0 - e.ts.getD 0 else acc) = max acc (r.ts.getD 0 - e.ts.getD 0) := by
            split_ifs with h
            · exact (max_eq_right (le_of_lt h.2.2)).symm
            · have hle : r.ts.getD 0 - e.ts.getD 0 ≤ acc := by omega
              exact (max_eq_left hle).symm
          simp only [streamScan, acceptedDtsStream, if_pos he, hr, if_pos hok,
            List.singleton_append, hmax, ih, List.foldl_cons]
        · have hacc :
            (if 0 < r.ts.getD 0 - e.ts.getD 0 ∧ r.ts.getD 0 - e.ts.getD 0 ≤ 3600 ∧
                acc < r.ts.getD 0 - e.ts.getD 0 then
              r.ts.getD 0 - e.ts.getD 0 else acc) = acc := by
            rw [if_neg]
            tauto
          simp only [streamScan, acceptedDtsStream, if_pos he, hr, if_neg hok,
            List.nil_append, hacc, ih]
    · simp only [streamScan, acceptedDtsStream, if_neg he, List.nil_append]
      exact ih acc

/-- Threading an accumulator through per-stream scans equals one `foldl
max` over the concatenation of the streams' accepted durations. -/
lemma foldl_streams_eq (A : (Option String × Option String) → List ℤ)
    (ks : List (Option String × Option String)) (acc : ℤ) :
    ks.foldl (fun a k => (A k).foldl max a) acc = ((ks.map A).flatten).foldl max acc := by
  induction ks generalizing acc with
  | nil => rfl
  | cons k t ih => simp only [List.foldl_cons, List.map_cons, List.flatten_cons,
      List.foldl_append, ih]

/-- The initial accumulator bounds `foldl max` from below. -/
lemma le_foldl_max (l : List ℤ) (a : ℤ) : a ≤ l.foldl max a := by
  induction l generalizing a with
  | nil => exact le_refl a
  | cons x t ih => exact le_trans (le_max_left a x) (ih (max a x))

/-- Every list element bounds `foldl max` from below. -/
lemma mem_le_foldl_max {d : ℤ} {l : List ℤ} (h : d ∈ l) (a : ℤ) :
    d ≤ l.foldl max a := by
  induction l generalizing a with
  | nil => cases h
  | cons x t ih =>
    rcases List.mem_cons.mp h with h | h
    · subst h
      exact le_trans (le_max_right a d) (le_foldl_max t (max a d))
    · exact ih h (max a x)

/-- `foldl max` returns its initial accumulator or a list element. -/
lemma foldl_max_mem (l : List ℤ) (a : ℤ) :
    l.foldl max a = a ∨ l.foldl max a ∈ l := by
  induction l generalizing a with
  | nil => exact Or.inl rfl
  | cons x t ih =>
    rcases ih (max a x) with h | h
    · rcases max_choice a x with hm | hm
      · exact Or.inl (by rw [List.foldl_cons, h, hm])
      · exact Or.inr (by rw [List.foldl_cons, h, hm]; exact List.mem_cons_self x t)
    · exact Or.inr (List.mem_cons_of_mem x h)

/-- Accepted durations of one stream satisfy the sanity bounds. -/
lemma acceptedDtsStream_bounds {d : ℤ} {g : List Event}
    (h : d ∈ acceptedDtsStream g) : 0 < d ∧ d ≤ 3600 := by
  induction g with
  | nil => cases h
  | cons e rest ih =>
    simp only [acceptedDtsStream] at h
    rcases List.mem_append.mp h with h | h
    · split at h
      · split at h
        · split at h
          · rename_i hdt
            rcases List.mem_singleton.mp h with rfl
            exact hdt
          · cases h
        · cases h
      · cases h
    · exact ih h

/-- The downtime analyzer's result is the `foldl max` of all accepted
durations. -/
lemma max_downtime_eq_foldl (events : List Event) :
    max_downtime_event_seconds events = (acceptedDowntimes events).foldl max 0 := by
  unfold max_downtime_event_seconds acceptedDowntimes
  by_cases h : (erTable events).isEmpty
  · rw [List.isEmpty_iff] at h
    simp [h, dedupByKey, dedupAux]
  · simp only [streamScan_eq, foldl_streams_eq]
    rw [if_neg h]

/-- C2: the downtime analyzer pairs each `ERROR` with the first `RESET`
after it in the same timestamp-sorted `(cell_id, robot_id)` stream (one
`RESET` may serve several preceding `ERROR`s), accepts only durations with
`0 < dt <= 3600`, and returns the maximum accepted duration, `0.0` when no
pair qualifies; `ERROR` at t=0 with `RESET` at t=100 yields `100.0`, and
with the `RESET` at t=4000 yields `0.0`. -/
theorem claim_c2 :
    (∀ events : List Event, ∀ d ∈ acceptedDowntimes events,
      (0 < d ∧ d ≤ 3600) ∧ d ≤ max_downtime_event_seconds events) ∧
    (∀ events : List Event,
      max_downtime_event_seconds events = 0 ∨
        max_downtime_event_seconds events ∈ acceptedDowntimes events) ∧
    max_downtime_event_seconds evDown1 = 100 ∧
    max_downtime_event_seconds evDown2 = 0 ∧
    acceptedDowntimes evDown3 = [100, 50] ∧
    max_downtime_event_seconds evDown3 = 100 := by
  refine ⟨?_, ?_, by decide, by decide, by decide, by decide⟩
  · intro events d hd
    have hb : 0 < d ∧ d ≤ 3600 := by
      unfold acceptedDowntimes at hd
      rcases List.mem_flatten.mp hd with ⟨l, hl, hdl⟩
      rcases List.mem_map.mp hl with ⟨k, _, rfl⟩
      exact acceptedDtsStream_bounds hdl
    exact ⟨hb, by rw [max_downtime_eq_foldl]; exact mem_le_foldl_max hd 0⟩
  · intro events
    rw [max_downtime_eq_foldl]
    exact foldl_max_mem (acceptedDowntimes events) 0

/-- Witness for C2: the bounds and maximality instantiated at the 100 s
pair of the two-`ERROR` fixture. -/
theorem claim_c2_witness :
    ((0 : ℤ) < 100 ∧ (100 : ℤ) ≤ 3600) ∧
      (100 : ℤ) ≤ max_downtime_event_seconds evDown3 :=
  claim_c2.1 evDown3 100 (by decide)

/-- Elements of the deduplicated list carry keys outside the seen set. -/
lemma dedupAux_not_seen {α κ : Type} [DecidableEq κ] (key : α → κ) :
    ∀ (l : List α) (seen : List κ) (a : α),
      a ∈ dedupAux key seen l → key a ∉ seen := by
  intro l
  induction l with
  | nil => intro seen a h; cases h
  | cons b t ih =>
    intro seen a h
    simp only [dedupAux] at h
    split at h
    · exact ih seen a h
    · rcases List.mem_cons.mp h with rfl | h
      · rename_i hb
        intro hs
        exact hb (List.contains_iff_exists_mem_beq.mpr ⟨key a, hs, by simp⟩)
      · intro hs
        exact ih (key b :: seen) a h (List.mem_cons_of_mem _ hs)

/-- Deduplication by key yields pairwise-distinct keys. -/
lemma dedupAux_pairwise {α κ : Type} [DecidableEq κ] (key : α → κ) :
    ∀ (l : List α) (seen : List κ),
      (dedupAux key seen l).Pairwise (fun x y => key x ≠ key y) := by
  intro l
  induction l with
  | nil => intro seen; exact List.Pairwise.nil
  | cons b t ih =>
    intro seen
    simp only [dedupAux]
    split
    · exact ih seen
    · refine List.Pairwise.cons ?_ (ih (key b :: seen))
      intro y hy
      have := dedupAux_not_seen key t (key b :: seen) y hy
      intro hk
      exact this (by rw [← hk]; exact List.mem_cons_self _ _)

/-- C5: the cleaner deduplicates by the full 7-tuple identity key — the
cleaned output never contains two rows equal on all seven fields; feeding
two identical rows yields exactly one cleaned row, and the DQ report
counts 1 duplicate removed for that input. -/
theorem claim_c5 :
    (∀ raw : List Event,
      (parse_and_clean_events raw).Pairwise (fun a b => key7 a ≠ key7 b)) ∧
    parse_and_clean_events [r0, r0] = [r0] ∧
    (build_dq_report [r0, r0] (parse_and_clean_events [r0, r0]) [] []).duplicates_removed =
      1 := by
  refine ⟨?_, by decide, by decide⟩
  intro raw
  simp only [parse_and_clean_events]
  have hperm :=
    List.perm_insertionSort cleanSortLE
      (dedupByKey key7 (((raw.map fun e => restrictEventType (normalizeEvent e)).filter
        criticalPresent)))
  exact (List.Perm.pairwise_iff (fun {a b} h hk => h hk.symm) hperm).mpr
    (dedupAux_pairwise key7 _ [])

/-- The group of cleaned events with pairing key `k`. -/
def dqGroup (clean : List Event)
    (k : Option String × Option String × Option String) : List Event :=
  clean.filter fun e => decide (key3 e = k)

/-- One loop iteration adds `max(0, #ARC_ON − #ARC_OFF)`,
`max(0, #ARC_OFF − #ARC_ON)` and `|#START_CYCLE − #END_CYCLE|` to the
three accumulators. -/
lemma dqStep_eq (clean : List Event) (acc : ℕ × ℕ × ℕ)
    (k : Option String × Option String × Option String) :
    dqStep clean acc k =
      (acc.1 + ((countType (dqGroup clean k) "ARC_ON" : ℤ) -
          (countType (dqGroup clean k) "ARC_OFF" : ℤ)).toNat,
       acc.2.1 + ((countType (dqGroup clean k) "ARC_OFF" : ℤ) -
          (countType (dqGroup clean k) "ARC_ON" : ℤ)).toNat,
       acc.2.2 + ((countType (dqGroup clean k) "START_CYCLE" : ℤ) -
          (countType (dqGroup clean k) "END_CYCLE" : ℤ)).natAbs) := by
  obtain ⟨a1, a2, a3⟩ := acc
  unfold dqStep dqGroup
  dsimp only
  split_ifs <;> refine Prod.ext ?_ (Prod.ext ?_ ?_) <;> dsimp only <;> omega

/-- The pairing loop equals a sum of per-group contributions. -/
lemma dqFold_eq (clean : List Event) :
    ∀ (ks : List (Option String × Option String × Option String)) (acc : ℕ × ℕ × ℕ),
      ks.foldl (dqStep clean) acc =
        (acc.1 + (ks.map fun k => ((countType (dqGroup clean k) "ARC_ON" : ℤ) -
            (countType (dqGroup clean k) "ARC_OFF" : ℤ)).toNat).sum,
         acc.2.1 + (ks.map fun k => ((countType (dqGroup clean k) "ARC_OFF" : ℤ) -
            (countType (dqGroup clean k) "ARC_ON" : ℤ)).toNat).sum,
         acc.2.2 + (ks.map fun k => ((countType (dqGroup clean k) "START_CYCLE" : ℤ) -
            (countType (dqGroup clean k) "END_CYCLE" : ℤ)).natAbs).sum) := by
  intro ks
  induction ks with
  | nil => intro acc; simp
  | cons k t ih =>
    intro acc
    rw [List.foldl_cons, ih (dqStep clean acc k), dqStep_eq]
    simp only [List.map_cons, List.sum_cons, Prod.mk.injEq]
    refine ⟨by omega, by omega, by omega⟩

/-- C8: `build_dq_report` groups the cleaned events by
`(cell_id, robot_id, job_id)` and returns `arc_on_without_off` as the sum
over groups of `max(0, #ARC_ON − #ARC_OFF)` (written `Int.toNat` of the
signed difference), `arc_off_without_on` as the sum of
`max(0, #ARC_OFF − #ARC_ON)`, and `missing_start_end_pairs` as the sum of
`|#START_CYCLE − #END_CYCLE|`. -/
theorem claim_c8 (events_raw events_clean : List Event)
    (quality_raw quality_clean : List QualityRow) :
    (build_dq_report events_raw events_clean quality_raw
        quality_clean).arc_on_without_off =
      ((dedupByKey id (events_clean.map key3)).map fun k =>
        ((countType (dqGroup events_clean k) "ARC_ON" : ℤ) -
          (countType (dqGroup events_clean k) "ARC_OFF" : ℤ)).toNat).sum ∧
    (build_dq_report events_raw events_clean quality_raw
        quality_clean).arc_off_without_on =
      ((dedupByKey id (events_clean.map key3)).map fun k =>
        ((countType (dqGroup events_clean k) "ARC_OFF" : ℤ) -
          (countType (dqGroup events_clean k) "ARC_ON" : ℤ)).toNat).sum ∧
    (build_dq_report events_raw events_clean quality_raw
        quality_clean).missing_start_end_pairs =
      ((dedupByKey id (events_clean.map key3)).map fun k =>
        ((countType (dqGroup events_clean k) "START_CYCLE" : ℤ) -
          (countType (dqGroup events_clean k) "END_CYCLE" : ℤ)).natAbs).sum := by
  have h := dqFold_eq events_clean (dedupByKey id (events_clean.map key3)) (0, 0, 0)
  refine ⟨?_, ?_, ?_⟩ <;>
    · simp only [build_dq_report, dqPairCounts]
      rw [h]
      simp

/-- C6: each worst-offender list excludes rows whose metric is null, is
sorted descending by the metric, and keeps at most the top `n` entries;
the six lists of a column-complete drilldown report are exactly these
rankings of the per-cell/per-robot summaries, and with cell scrap rates
`[0.5, 0.3, 0.9, 0.1]` and `n = 2` the ranking is the 0.9-row then the
0.5-row. -/
theorem claim_c6 (n : ℕ) (rows : List EntitySummary)
    (metric : EntitySummary → Option ℚ) (et : EventsTable) (qt : QualityTable)
    (s : String) :
    (∀ r ∈ top_offenders n rows metric, (metric r).isSome) ∧
    (top_offenders n rows metric).Pairwise
      (fun a b => (metric b).getD 0 ≤ (metric a).getD 0) ∧
    (top_offenders n rows metric).length ≤ n ∧
    ("cell_id" ∈ et.columns → "cell_id" ∈ qt.columns →
      (drilldown_report et qt n s).cells_by_scrap_rate =
        top_offenders n (perCellSummaries et qt) (·.scrap_rate) ∧
      (drilldown_report et qt n s).cells_by_max_downtime =
        top_offenders n (perCellSummaries et qt) (·.max_downtime_event_sec) ∧
      (drilldown_report et qt n s).cells_by_cycle_p95 =
        top_offenders n (perCellSummaries et qt) (·.cycle_time_p95_sec) ∧
      (drilldown_report et qt n s).robots_by_scrap_rate =
        top_offenders n (perRobotSummaries et qt) (·.scrap_rate) ∧
      (drilldown_report et qt n s).robots_by_max_downtime =
        top_offenders n (perRobotSummaries et qt) (·.max_downtime_event_sec) ∧
      (drilldown_report et qt n s).robots_by_cycle_p95 =
        top_offenders n (perRobotSummaries et qt) (·.cycle_time_p95_sec)) ∧
    top_offenders 2 [sumA, sumB, sumC, sumD] (·.scrap_rate) = [sumC, sumA] := by
  refine ⟨?_, ?_, ?_, ?_, ?_⟩
  · intro r hr
    unfold top_offenders at hr
    have hr2 := List.take_subset _ _ hr
    rw [List.mem_insertionSort] at hr2
    exact (List.mem_filter.mp hr2).2
  · haveI : IsTotal EntitySummary
        (fun a b => (metric b).getD 0 ≤ (metric a).getD 0) :=
      ⟨fun a b => le_total _ _⟩
    haveI : IsTrans EntitySummary
        (fun a b => (metric b).getD 0 ≤ (metric a).getD 0) :=
      ⟨fun _ _ _ h1 h2 => le_trans h2 h1⟩
    exact (List.sorted_insertionSort _ _).sublist (List.take_sublist _ _)
  · exact List.length_take_le _ _
  · intro h1 h2
    have hc : ¬ ("cell_id" ∉ et.columns ∨ "cell_id" ∉ qt.columns) := by
      push_neg
      exact ⟨h1, h2⟩
    unfold drilldown_report
    rw [if_neg hc]
    exact ⟨rfl, rfl, rfl, rfl, rfl, rfl⟩
  · norm_num [top_offenders, List.insertionSort, List.orderedInsert,
      sumA, sumB, sumC, sumD]

/-- Witness for C6: the six-list characterization instantiated on concrete
tables that have the `cell_id` column. -/
theorem claim_c6_witness :
    (drilldown_report ⟨["cell_id"], []⟩ ⟨["cell_id"], []⟩ 5 "t").cells_by_scrap_rate =
      top_offenders 5 (perCellSummaries ⟨["cell_id"], []⟩ ⟨["cell_id"], []⟩)
        (·.scrap_rate) :=
  ((claim_c6 5 [] (·.scrap_rate) ⟨["cell_id"], []⟩ ⟨["cell_id"], []⟩ "t").2.2.2.1
    (by decide) (by decide)).1

/-- Rounding fixes zero. -/
lemma pyRound_zero (n : ℕ) : pyRound n 0 = 0 := by
  unfold pyRound roundHalfEven
  norm_num

/-- When the KPI snapshot's cycle p95 is null, `_compute_kpi_plus` coerces
the top-level `cycle_time_p95_sec` to `0.0`. -/
lemma compute_kpi_plus_p95_zero (events : List Event) (quality : List QualityRow)
    (h : (compute_kpis events quality).cycle_time_sec.p95 = none) :
    (compute_kpi_plus events quality).cycle_time_p95_sec = 0 := by
  unfold compute_kpi_plus
  dsimp only
  rw [h]
  show pyRound 1 0 = 0
  exact pyRound_zero 1

/-- A per-cell summary's `cycle_time_p95_sec` field is the
`_compute_kpi_plus` value of the cell's slice. -/
lemma cellSummary_p95 (et : EventsTable) (qt : QualityTable) (c : String)
    (sm : EntitySummary) (h : cellSummary et qt c = some sm) :
    sm.cycle_time_p95_sec =
      some ((compute_kpi_plus (et.rows.filter fun e => decide (e.cell_id = some c))
        (qt.rows.filter fun q => decide (q.cell_id = some c))).cycle_time_p95_sec) := by
  unfold cellSummary at h
  dsimp only at h
  split at h
  · cases h
  · cases h
    rfl

/-- A per-robot summary's `cycle_time_p95_sec` field is the
`_compute_kpi_plus` value of the pair's slice. -/
lemma robotSummary_p95 (et : EventsTable) (qt : QualityTable) (p : String × String)
    (sm : EntitySummary) (h : robotSummary et qt p = some sm) :
    sm.cycle_time_p95_sec =
      some ((compute_kpi_plus
        (et.rows.filter fun e =>
          decide (e.cell_id = some p.1) && decide (e.robot_id = some p.2))
        (qt.rows.filter fun q =>
          decide (q.cell_id = some p.1) && decide (q.robot_id = some p.2))).cycle_time_p95_sec) := by
  unfold robotSummary at h
  dsimp only at h
  split at h
  · cases h
  · cases h
    rfl

/-- C10: when the accepted cycle-time sample yields a null p95, the
enriched KPI report's top-level `cycle_time_p95_sec` is `0.0` (not null),
the cycle-time alert is evaluated at `0.0` and classifies `OK` under the
default thresholds, and the same `or 0.0` coercion is applied in every
per-cell and per-robot drilldown summary. -/
theorem claim_c10 (events : List Event) (quality : List QualityRow)
    (th : Option ThresholdsCfg) (et : EventsTable) (qt : QualityTable)
    (n : ℕ) (s : String) :
    ((compute_kpis events quality).cycle_time_sec.p95 = none →
      (kpi_report_payload events quality th).cycle_time_p95_sec = 0 ∧
      (compute_kpi_plus events quality).cycle_time_p95_sec = 0 ∧
      (kpi_report_payload events quality th).alerts =
        [alert_scrap_rate (compute_kpis events quality).scrap_rate th,
         alert_long_downtime ((max_downtime_event_seconds events : ℤ) : ℚ) th,
         alert_cycle_time_p95 0 th]) ∧
    (alert_cycle_time_p95 0 none).level = "OK" ∧
    (∀ (c : String) (sm : EntitySummary), cellSummary et qt c = some sm →
      (compute_kpis (et.rows.filter fun e => decide (e.cell_id = some c))
        (qt.rows.filter fun q => decide (q.cell_id = some c))).cycle_time_sec.p95 =
          none →
      sm.cycle_time_p95_sec = some 0) ∧
    (∀ (p : String × String) (sm : EntitySummary), robotSummary et qt p = some sm →
      (compute_kpis
        (et.rows.filter fun e =>
          decide (e.cell_id = some p.1) && decide (e.robot_id = some p.2))
        (qt.rows.filter fun q =>
          decide (q.cell_id = some p.1) && decide (q.robot_id = some p.2))).cycle_time_sec.p95 =
            none →
      sm.cycle_time_p95_sec = some 0) ∧
    (∀ sm ∈ (drilldown_report et qt n s).per_cell, sm.cycle_time_p95_sec.isSome) ∧
    (∀ sm ∈ (drilldown_report et qt n s).per_robot, sm.cycle_time_p95_sec.isSome) := by
  refine ⟨?_, ?_, ?_, ?_, ?_, ?_⟩
  · intro h
    refine ⟨?_, compute_kpi_plus_p95_zero events quality h, ?_⟩
    · unfold kpi_report_payload
      dsimp only
      rw [h]
      show pyRound 1 0 = 0
      exact pyRound_zero 1
    · unfold kpi_report_payload
      dsimp only
      rw [h]
      rfl
  · norm_num [alert_cycle_time_p95, get_thresholds]
  · intro c sm hm hp
    rw [cellSummary_p95 et qt c sm hm, compute_kpi_plus_p95_zero _ _ hp]
  · intro p sm hm hp
    rw [robotSummary_p95 et qt p sm hm, compute_kpi_plus_p95_zero _ _ hp]
  · intro sm hm
    by_cases hc : "cell_id" ∉ et.columns ∨ "cell_id" ∉ qt.columns
    · unfold drilldown_report at hm
      rw [if_pos hc] at hm
      cases hm
    · unfold drilldown_report at hm
      rw [if_neg hc] at hm
      dsimp only [perCellSummaries] at hm
      rcases List.mem_filterMap.mp hm with ⟨c, _, hcs⟩
      rw [cellSummary_p95 et qt c sm hcs]
      rfl
  · intro sm hm
    by_cases hc : "cell_id" ∉ et.columns ∨ "cell_id" ∉ qt.columns
    · unfold drilldown_report at hm
      rw [if_pos hc] at hm
      cases hm
    · unfold drilldown_report at hm
      rw [if_neg hc] at hm
      dsimp only [perRobotSummaries] at hm
      split at hm
      · rcases List.mem_filterMap.mp hm with ⟨p, _, hps⟩
        rw [robotSummary_p95 et qt p sm hps]
        rfl
      · cases hm

/-- Witness for C10: the coercion instantiated at empty tables (whose
accepted cycle sample is empty, hence a null p95). -/
theorem claim_c10_witness :
    (kpi_report_payload [] [] none).cycle_time_p95_sec = 0 ∧
    (compute_kpi_plus [] []).cycle_time_p95_sec = 0 :=
  ⟨((claim_c10 [] [] none ⟨["cell_id"], []⟩ ⟨["cell_id"], []⟩ 5 "t").1 (by decide)).1,
    ((claim_c10 [] [] none ⟨["cell_id"], []⟩ ⟨["cell_id"], []⟩ 5 "t").1 (by decide)).2.1⟩

end WeldPipeline
